import Mathlib

/-!
# Verification of the streaming watcher scripts

Shallow embedding of the repository's watcher scripts: the Pump.fun
token-mint monitor (`pumpfun-monitor.js`), the Pump.fun migration
listener, the high-value SOL transfer monitor, and the Hyperliquid
whale tracker.  Byte buffers are `List Nat` (one `Nat` per byte),
account identifiers are `String` (the base58-encoded form the scripts
compare against), monetary quantities are `ℚ` (the scripts use
JS numbers; all claims below concern values far inside the exactly
representable range).  A JS exception is `Option.none` at the point
where the surrounding `try`/`catch` observes it.
-/

namespace Watcher

/-! ## Byte Decoder (pumpfun-monitor.js, high-value transfer monitor)

Node `Buffer` semantics: `readUInt32LE`/`readBigUInt64LE` throw a
range error when fewer than 4 (resp. 8) bytes remain at the offset;
`Buffer.slice(start, end)` clamps both bounds to the buffer and never
throws. -/

/-- Node `buffer.readUInt32LE(offset)`: little-endian 32-bit read,
`none` models the thrown range error when fewer than 4 bytes remain. -/
def readUInt32LE (buf : List Nat) (off : Nat) : Option Nat :=
  if off + 4 ≤ buf.length then
    some (buf.getD off 0 + buf.getD (off + 1) 0 * 256 +
          buf.getD (off + 2) 0 * 65536 + buf.getD (off + 3) 0 * 16777216)
  else none

/-- Node `buffer.readBigUInt64LE(offset)`: little-endian 64-bit read,
`none` models the thrown range error when fewer than 8 bytes remain. -/
def readBigUInt64LE (buf : List Nat) (off : Nat) : Option Nat :=
  if off + 8 ≤ buf.length then
    some (buf.getD off 0 + buf.getD (off + 1) 0 * 256 +
          buf.getD (off + 2) 0 * 65536 + buf.getD (off + 3) 0 * 16777216 +
          buf.getD (off + 4) 0 * 4294967296 + buf.getD (off + 5) 0 * 1099511627776 +
          buf.getD (off + 6) 0 * 281474976710656 + buf.getD (off + 7) 0 * 72057594037927936)
  else none

/-- Node `buffer.slice(start, stop)`: clamps both bounds, never throws. -/
def bufSlice (buf : List Nat) (start stop : Nat) : List Nat :=
  (buf.take stop).drop start

/-- `decodeString(buffer, offset)` from `pumpfun-monitor.js`: reads a
4-byte little-endian length `L`, then slices `L` bytes (Node slice
clamps, so fewer bytes may come back) and reports `bytesRead = 4 + L`.
The returned string is kept as its UTF-8 byte list.  `none` is the
range error thrown by `readUInt32LE`. -/
def decodeString (buf : List Nat) (off : Nat) : Option (List Nat × Nat) :=
  match readUInt32LE buf off with
  | none => none
  | some len => some (bufSlice buf (off + 4) (off + 4 + len), 4 + len)

/-- The Pump.fun `create` instruction discriminator. -/
def CREATE_DISCRIMINATOR : List Nat := [24, 30, 200, 40, 5, 28, 7, 119]

/-- `data.slice(0, 8).equals(CREATE_DISCRIMINATOR)`: the discriminator
comparison inside `isCreateInstruction`.  `Buffer.equals` compares
lengths as well as contents, so a short payload simply compares false. -/
def discriminatorMatches (data : List Nat) : Bool :=
  decide (data.take 8 = CREATE_DISCRIMINATOR)

/-- `parseCreateInstruction(data)`: skips the 8-byte discriminator and
decodes three length-prefixed strings (name, symbol, uri); the
`try`/`catch` turns any thrown range error into `null`. -/
def parseCreateInstruction (data : List Nat) : Option (List Nat × List Nat × List Nat) :=
  match decodeString data 8 with
  | none => none
  | some (name, n1) =>
    match decodeString data (8 + n1) with
    | none => none
    | some (symbol, n2) =>
      match decodeString data (8 + n1 + n2) with
      | none => none
      | some (uri, _) => some (name, symbol, uri)

end Watcher

namespace Watcher

/-! ## Pump.fun token-mint monitor (pumpfun-monitor.js)

The gRPC stream handler in `monitorPumpfunMints`.  Account keys arrive
as raw bytes and every use goes through `bs58.encode`; we represent a
key directly by its base58 string.  `bs58.encode(Buffer.from(x))`
throws when `x` is `undefined` (an out-of-range index), which the
models surface as `none`. -/

def PUMPFUN_PROGRAM : String := "6EF8rrecthR5Dkzon8Nwu78hRvfCKubJ14M5uBEwF6P"

/-- A compiled instruction as the gRPC feed delivers it: program-id
index, account-index list and raw data bytes. -/
structure PfInstruction where
  programIdIndex : Nat
  accounts : List Nat
  data : List Nat
  deriving DecidableEq, Repr

/-- The transaction fields the mint-monitor handler reads.  `err` is
the transaction-level error from the provider's metadata; the handler
never consults it (which claim C1 is about). -/
structure PfTxView where
  err : Option String
  accountKeys : List String
  instructions : List PfInstruction
  signature : String
  slot : Nat
  deriving DecidableEq, Repr

/-- `isCreateInstruction(instruction, accountKeys)`: `none` models the
throw from `bs58.encode` when `programIdIndex` is out of range (caught
by the stream handler's `try`/`catch`); otherwise the program-id check
followed by the discriminator comparison. -/
def isCreateInstruction (inst : PfInstruction) (accountKeys : List String) : Option Bool :=
  match accountKeys.get? inst.programIdIndex with
  | none => none
  | some programId =>
    if programId ≠ PUMPFUN_PROGRAM then some false
    else some (discriminatorMatches inst.data)

/-- `accountIndices.map(idx => bs58.encode(Buffer.from(accountKeys[idx])))`:
fails (throws, hence `none`) if any referenced index is out of range. -/
def mapAccountIndices (accountKeys : List String) : List Nat → Option (List String)
  | [] => some []
  | i :: rest =>
    match accountKeys.get? i with
    | none => none
    | some k => (mapAccountIndices accountKeys rest).map (k :: ·)

/-- The `{mint, bondingCurve, creator}` object built by
`extractAccounts`; a field is `none` when the JS value is `undefined`
(the instruction references fewer than 8 accounts). -/
structure MintAccounts where
  mint : Option String
  bondingCurve : Option String
  creator : Option String
  deriving DecidableEq, Repr

/-- `extractAccounts(transaction, instructionIndex)` for a given
instruction: maps the account indices through the key list (any
out-of-range index throws, caught into `null`), then picks positions
0, 2 and 7. -/
def extractAccounts (accountKeys : List String) (inst : PfInstruction) : Option MintAccounts :=
  match mapAccountIndices accountKeys inst.accounts with
  | none => none
  | some accs => some ⟨accs.get? 0, accs.get? 2, accs.get? 7⟩

/-- The `MintCreated` domain event assembled by `displayTokenMint`'s
caller: token metadata plus resolved accounts, signature and slot. -/
structure MintEvent where
  name : List Nat
  symbol : List Nat
  uri : List Nat
  accounts : MintAccounts
  signature : String
  slot : Nat
  deriving DecidableEq, Repr

/-- The instruction loop of the `stream.on("data")` handler.  A throw
from `isCreateInstruction` hits the handler-level `catch` and aborts
the remaining instructions (events already displayed stay displayed);
a `null` from `parseCreateInstruction` or `extractAccounts` just skips
the instruction (`continue`). -/
def pfProcess (accountKeys : List String) (signature : String) (slot : Nat) :
    List PfInstruction → List MintEvent
  | [] => []
  | inst :: rest =>
    match isCreateInstruction inst accountKeys with
    | none => []
    | some false => pfProcess accountKeys signature slot rest
    | some true =>
      match parseCreateInstruction inst.data with
      | none => pfProcess accountKeys signature slot rest
      | some (name, symbol, uri) =>
        match extractAccounts accountKeys inst with
        | none => pfProcess accountKeys signature slot rest
        | some accs =>
          ⟨name, symbol, uri, accs, signature, slot⟩ ::
            pfProcess accountKeys signature slot rest

/-- The whole per-transaction path of the mint monitor's data handler:
note that it reads account keys, instructions, signature and slot but
never `err` — failed transactions are classified like any other. -/
def pumpfunHandler (v : PfTxView) : List MintEvent :=
  pfProcess v.accountKeys v.signature v.slot v.instructions

/-! ## Pump.fun migration listener (unnamed/part_000)

`processLog` receives a `logsNotification` value; `handleOpen` /
`handleClose` manage the WebSocket lifecycle. -/

def RAYDIUM_PROGRAM : String := "675kPX9MHTjS2zt1qfr1NYHuzeLXfQM9H24wFSUt1Mp8"

/-- The fields of the `logsNotification` value `processLog` reads. -/
structure LogValue where
  signature : String
  err : Option String
  logs : List String
  deriving DecidableEq, Repr

/-- Substring containment over character lists (JS `String.includes`). -/
def hasSubstringAux (sub : List Char) : List Char → Bool
  | [] => sub.isEmpty
  | c :: rest => sub.isPrefixOf (c :: rest) || hasSubstringAux sub rest

/-- JS `log.includes(sub)`. -/
def jsIncludes (log sub : String) : Bool :=
  hasSubstringAux sub.data log.data

/-- The migration heuristic of `processLog`: one of three phrases
occurs somewhere in a log line. -/
def isMigrationLogLine (log : String) : Bool :=
  jsIncludes log "Instruction: Migrate" || jsIncludes log "migrate" ||
    jsIncludes log "initialize2"

/-- The decision `processLog` takes on one delivery. -/
inductive LogAction where
  | skipFailed
  | fetch (signature : String)
  | notMigration
  deriving DecidableEq, Repr

/-- `processLog(result)`: failed transactions are skipped before the
log-substring scan; a migration match triggers one
`fetchAndProcessTransaction(value.signature)` call. -/
def processLog (v : LogValue) : LogAction :=
  if v.err.isSome then .skipFailed
  else if v.logs.any isMigrationLogLine then .fetch v.signature
  else .notMigration

/-- Signatures fetched over a list of deliveries: the listener holds
no seen-signature set, so this is just the per-delivery action of
`processLog`, concatenated. -/
def fetchedSignatures : List LogValue → List String
  | [] => []
  | v :: rest =>
    match processLog v with
    | .fetch s => s :: fetchedSignatures rest
    | _ => fetchedSignatures rest

/-- `PumpFunMigrationListener` connection state: the fields touched by
`handleOpen` and `handleClose`. -/
structure ListenerState where
  isConnected : Bool
  reconnectAttempts : Nat
  deriving DecidableEq, Repr

/-- `maxReconnectAttempts` of the migration listener. -/
def maxReconnectAttempts : Nat := 10

/-- `handleOpen()`: marks the connection live and resets the reconnect
counter to zero before subscribing. -/
def handleOpen (st : ListenerState) : ListenerState :=
  { st with isConnected := true, reconnectAttempts := 0 }

/-- What `handleClose` schedules: a reconnect after a delay, or the
fatal `process.exit(1)` once the attempt budget is exhausted. -/
inductive CloseOutcome where
  | reconnect (delayMs : Nat)
  | fatalExit
  deriving DecidableEq, Repr

/-- `handleClose()`: increments the attempt counter and schedules a
reconnect after `min(1000 * 2^attempts, 30000)` ms, or exits after
`maxReconnectAttempts` attempts. -/
def handleClose (st : ListenerState) : ListenerState × CloseOutcome :=
  if st.reconnectAttempts < maxReconnectAttempts then
    let a := st.reconnectAttempts + 1
    ({ st with isConnected := false, reconnectAttempts := a },
      .reconnect (min (1000 * 2 ^ a) 30000))
  else
    ({ st with isConnected := false }, .fatalExit)

/-- An instruction as `extractMigrationData` sees it: either the
compiled form (`programIdIndex`) or the parsed form (`programId`),
plus the account-index list. -/
structure RawInstruction where
  programIdIndex : Option Nat
  programId : Option String
  accounts : List Nat
  deriving DecidableEq, Repr

/-- The program-id resolution at the top of the instruction loop: the
compiled branch indexes the key list (an out-of-range index leaves the
JS variable `undefined`, i.e. `none`, and both program checks are then
skipped); the parsed branch uses the inline id. -/
def resolveProgramId (accountKeys : List String) (inst : RawInstruction) : Option String :=
  match inst.programIdIndex with
  | some i => accountKeys.get? i
  | none => inst.programId

/-- A migration domain event as `extractMigrationData` assembles it. -/
inductive MigrationData where
  | raydium (poolAddress tokenAddress quoteMint lpMint : String)
  | pumpswap (tokenAddress bondingCurve : String)
  deriving DecidableEq, Repr

/-- The body of the instruction loop for one instruction that has
reached a program-id match, mirroring the two `return` branches:
the Raydium branch needs at least 7 accounts and throws (caught into
`null` for the whole extraction) when an account index is out of the
key list; the PumpSwap branch substitutes `"Unknown"` for missing
keys. -/
def buildMigration (accountKeys : List String) (inst : RawInstruction) :
    Option MigrationData :=
  match resolveProgramId accountKeys inst with
  | none => none
  | some pid =>
    if pid = RAYDIUM_PROGRAM then
      if inst.accounts.length < 7 then none
      else
        match accountKeys.get? (inst.accounts.getD 1 0),
              accountKeys.get? (inst.accounts.getD 5 0),
              accountKeys.get? (inst.accounts.getD 6 0),
              accountKeys.get? (inst.accounts.getD 4 0) with
        | some pool, some tok, some quote, some lp =>
          some (.raydium pool tok quote lp)
        | _, _, _, _ => none
    else if pid = PUMPFUN_PROGRAM then
      some (.pumpswap (accountKeys.getD 2 "Unknown") (accountKeys.getD 1 "Unknown"))
    else none

/-- Whether an instruction takes one of the two `return` branches of
`extractMigrationData`'s loop: Raydium program with at least 7
accounts, or the Pump.fun program. -/
def isMigrationMatch (accountKeys : List String) (inst : RawInstruction) : Bool :=
  match resolveProgramId accountKeys inst with
  | none => false
  | some pid =>
    (decide (pid = RAYDIUM_PROGRAM) && decide (7 ≤ inst.accounts.length)) ||
      decide (pid = PUMPFUN_PROGRAM)

/-- `extractMigrationData(tx, signature)`'s instruction loop: scans in
order and returns on the first matching instruction; a Raydium match
with fewer than 7 accounts is `continue`d past; an exception inside a
matched Raydium branch aborts the whole extraction (`catch` returns
`null`). -/
def extractMigrationData (accountKeys : List String) :
    List RawInstruction → Option MigrationData
  | [] => none
  | inst :: rest =>
    match resolveProgramId accountKeys inst with
    | none => extractMigrationData accountKeys rest
    | some pid =>
      if pid = RAYDIUM_PROGRAM then
        if inst.accounts.length < 7 then extractMigrationData accountKeys rest
        else
          match accountKeys.get? (inst.accounts.getD 1 0),
                accountKeys.get? (inst.accounts.getD 5 0),
                accountKeys.get? (inst.accounts.getD 6 0),
                accountKeys.get? (inst.accounts.getD 4 0) with
          | some pool, some tok, some quote, some lp =>
            some (.raydium pool tok quote lp)
          | _, _, _, _ => none
      else if pid = PUMPFUN_PROGRAM then
        some (.pumpswap (accountKeys.getD 2 "Unknown") (accountKeys.getD 1 "Unknown"))
      else extractMigrationData accountKeys rest

/-! ## High-value SOL transfer monitor (unnamed/part_001) -/

def SYSTEM_PROGRAM : String := "11111111111111111111111111111111"

/-- `MIN_TRANSFER_AMOUNT`: threshold in SOL. -/
def MIN_TRANSFER_AMOUNT : Nat := 100

/-- The `{amount, from, to}` object `parseTransferInstruction` returns. -/
structure TransferData where
  amount : Nat
  sender : String
  receiver : String
  deriving DecidableEq, Repr

/-- `parseTransferInstruction(instruction, accountKeys)`: system
transfer layout check (≥ 12 data bytes, type tag 2), 64-bit amount,
two account references resolved through the key list; any throw is
caught into `null`.  The JS code converts the bigint amount with
`Number(...)`; all claim-relevant amounts are far below 2^53 where
that conversion is exact, so the amount stays a `Nat`. -/
def parseTransferInstruction (inst : PfInstruction) (accountKeys : List String) :
    Option TransferData :=
  if inst.data.length < 12 then none
  else
    match readUInt32LE inst.data 0 with
    | none => none
    | some ty =>
      if ty ≠ 2 then none
      else
        match readBigUInt64LE inst.data 4 with
        | none => none
        | some lamports =>
          if inst.accounts.length < 2 then none
          else
            match accountKeys.get? (inst.accounts.getD 0 0),
                  accountKeys.get? (inst.accounts.getD 1 0) with
            | some f, some t => some ⟨lamports, f, t⟩
            | _, _ => none

/-- The threshold gate of the transfer monitor's instruction loop:
`transferData.amount / 1_000_000_000 >= MIN_TRANSFER_AMOUNT`. -/
def transferIsWhale (lamports : Nat) : Bool :=
  decide ((MIN_TRANSFER_AMOUNT : ℚ) ≤ (lamports : ℚ) / 1000000000)

/-- One instruction of the transfer monitor's loop: the system-program
check, the parse, then the threshold gate; `some td` means
`displayTransfer` runs for it. -/
def transferEvent (inst : PfInstruction) (accountKeys : List String) :
    Option TransferData :=
  match accountKeys.get? inst.programIdIndex with
  | none => none
  | some pid =>
    if pid ≠ SYSTEM_PROGRAM then none
    else
      match parseTransferInstruction inst accountKeys with
      | none => none
      | some td => if transferIsWhale td.amount then some td else none

/-! ## Hyperliquid whale tracker (hyperliquid-whale-tracker)

`HyperliquidWhaleTracker` holds two WebSocket connections sharing one
`reconnectAttempts` counter, a Telegram message queue and the (never
filled) `pendingAlerts` batch buffer.  Prices and sizes are `parseFloat`
results, modelled as `ℚ`. -/

/-- The `CONFIG` object fields the modelled functions read. -/
structure HLConfig where
  whaleThresholdUsd : ℚ
  whaleThresholdSize : ℚ
  telegramBotToken : String
  telegramChatId : String
  batchAlerts : Bool
  batchIntervalMs : Nat
  deriving DecidableEq, Repr

/-- `CONFIG` with every environment variable unset: thresholds 100000
USD / 50 contracts, batching on, a 10-minute batch interval. -/
def defaultConfig (token chatId : String) : HLConfig :=
  { whaleThresholdUsd := 100000
    whaleThresholdSize := 50
    telegramBotToken := token
    telegramChatId := chatId
    batchAlerts := true
    batchIntervalMs := 60 * 10000 }

/-- A trade from the `trades` channel, after `parseFloat`. -/
structure WhaleTrade where
  coin : String
  side : String
  price : ℚ
  sz : ℚ
  user : String
  deriving DecidableEq, Repr

/-- What ends up in `telegramQueue`: either an individual alert
message built by `notifyWhaleTrade`, or the aggregated batch message
built by `sendBatchedAlerts` (count and total notional value). -/
inductive OutMessage where
  | single (trade : WhaleTrade)
  | batch (count : Nat) (totalValue : ℚ)
  deriving DecidableEq, Repr

/-- Per-address rollup entry of `whaleAddresses`. -/
structure WhaleProfileEntry where
  address : String
  totalVolume : ℚ
  tradeCount : Nat
  deriving DecidableEq, Repr

/-- The tracker state fields the modelled functions touch. -/
structure HLState where
  reconnectAttempts : Nat
  telegramQueue : List OutMessage
  pendingAlerts : List WhaleTrade
  whaleAddresses : List WhaleProfileEntry
  tradeCount : Nat
  deriving DecidableEq, Repr

/-- The tracker's initial state (constructor). -/
def initialHLState : HLState :=
  { reconnectAttempts := 0
    telegramQueue := []
    pendingAlerts := []
    whaleAddresses := []
    tradeCount := 0 }

/-- `this.TELEGRAM_DELAY`: minimum inter-send delay in ms. -/
def TELEGRAM_DELAY : Nat := 1500

/-- `maxReconnectAttempts` of the whale tracker. -/
def hlMaxReconnectAttempts : Nat := 5

/-- Both Telegram credentials present (`CONFIG.TELEGRAM_BOT_TOKEN &&
CONFIG.TELEGRAM_CHAT_ID`; JS truthiness of a string is non-emptiness). -/
def telegramConfigured (c : HLConfig) : Bool :=
  decide (c.telegramBotToken ≠ "") && decide (c.telegramChatId ≠ "")

/-- `sendTelegramMessage(message)`: bails out without credentials,
otherwise appends to the queue (the consumer is modelled separately). -/
def sendTelegramMessage (c : HLConfig) (st : HLState) (m : OutMessage) : HLState :=
  if telegramConfigured c then { st with telegramQueue := st.telegramQueue ++ [m] }
  else st

/-- `notifyWhaleTrade(trade)`: formats and immediately enqueues one
individual message.  It never consults `CONFIG.TELEGRAM_BATCH_ALERTS`
and never touches `pendingAlerts`. -/
def notifyWhaleTrade (c : HLConfig) (st : HLState) (t : WhaleTrade) : HLState :=
  sendTelegramMessage c st (.single t)

/-- `trackWhaleAddress(address, value, coin)` on the association list. -/
def trackWhaleAddress (st : HLState) (address : String) (value : ℚ) : HLState :=
  if st.whaleAddresses.any (fun w => w.address = address) then
    { st with
      whaleAddresses := st.whaleAddresses.map fun w =>
        if w.address = address then
          { w with totalVolume := w.totalVolume + value, tradeCount := w.tradeCount + 1 }
        else w }
  else
    { st with whaleAddresses := st.whaleAddresses ++ [⟨address, value, 1⟩] }

/-- The whale gate in `analyzeTrade`:
`value >= CONFIG.WHALE_THRESHOLD_USD || size >= CONFIG.WHALE_THRESHOLD_SIZE`. -/
def isWhaleTrade (c : HLConfig) (t : WhaleTrade) : Bool :=
  decide (c.whaleThresholdUsd ≤ t.price * t.sz) ||
    decide (c.whaleThresholdSize ≤ t.sz)

/-- `analyzeTrade(trade)`: threshold gate, whale-address tracking for
known users, immediate notification, trade counter. -/
def analyzeTrade (c : HLConfig) (st : HLState) (t : WhaleTrade) : HLState :=
  if isWhaleTrade c t then
    let st1 :=
      if t.user ≠ "" ∧ t.user ≠ "Unknown" then
        trackWhaleAddress st t.user (t.price * t.sz)
      else st
    let st2 := notifyWhaleTrade c st1 t
    { st2 with tradeCount := st2.tradeCount + 1 }
  else st

/-- `sendBatchedAlerts()`: flushes `pendingAlerts` as one aggregated
message carrying the trade count and the summed notional value.  (The
function exists in the source but nothing ever calls it and nothing
ever fills `pendingAlerts`.) -/
def sendBatchedAlerts (c : HLConfig) (st : HLState) : HLState :=
  if st.pendingAlerts.isEmpty then st
  else
    let totalValue := st.pendingAlerts.foldl (fun s a => s + a.price * a.sz) 0
    let st1 := sendTelegramMessage c st (.batch st.pendingAlerts.length totalValue)
    { st1 with pendingAlerts := [] }

/-- The `'open'` handler of `connectHyperEVM`: resets the shared
reconnect counter before subscribing. -/
def hyperEvmOnOpen (st : HLState) : HLState :=
  { st with reconnectAttempts := 0 }

/-- The `'open'` handler of `connectHyperliquidInfo`: subscribes to
trades and the orderbook but does not touch the reconnect counter. -/
def hyperliquidInfoOnOpen (st : HLState) : HLState :=
  st

/-- `handleReconnect(connection)`: increments the shared counter and
schedules a reconnect after `min(1000 * 2^attempts, 30000)` ms, or
gives up after `maxReconnectAttempts`. -/
def handleReconnect (st : HLState) : HLState × Option Nat :=
  if st.reconnectAttempts < hlMaxReconnectAttempts then
    let a := st.reconnectAttempts + 1
    ({ st with reconnectAttempts := a }, some (min (1000 * 2 ^ a) 30000))
  else (st, none)

/-! ### Telegram queue consumer (processTelegramQueue)

One pass of `processTelegramQueue` for a non-empty queue: shift the
head, send it, inspect the sink's response, then schedule the next
pass `TELEGRAM_DELAY` ms later.  The sink's response is an input of
the step. -/

/-- The sink outcomes the consumer distinguishes: success, a 429 with
an optional `retry_after` (seconds), another API error, or a thrown
network error. -/
inductive SinkResponse where
  | success
  | rateLimited (retryAfterSec : Option Nat)
  | apiError
  | networkError
  deriving DecidableEq, Repr

/-- `errorData.parameters?.retry_after || 5`: JS `||` also replaces a
present `0` by the 5-second default. -/
def effectiveRetryAfter : Option Nat → Nat
  | none => 5
  | some 0 => 5
  | some s => s

/-- Result of one consumer pass: the queue afterwards and the total
time slept before the next pass begins. -/
structure QueueStepResult where
  queue : List OutMessage
  sleptMsBeforeNext : Nat
  deriving DecidableEq, Repr

/-- One pass of `processTelegramQueue`: an empty queue stops the
consumer; on a 429 the consumer sleeps `retry_after * 1000` ms and
unshifts the message back to the front; on success or any other error
the message leaves the queue (dropped on non-429 errors); every pass
ends with the `TELEGRAM_DELAY` re-schedule. -/
def processTelegramQueueStep (q : List OutMessage) (resp : SinkResponse) :
    QueueStepResult :=
  match q with
  | [] => ⟨[], 0⟩
  | m :: rest =>
    match resp with
    | .success => ⟨rest, TELEGRAM_DELAY⟩
    | .apiError => ⟨rest, TELEGRAM_DELAY⟩
    | .networkError => ⟨rest, TELEGRAM_DELAY⟩
    | .rateLimited ra =>
      ⟨m :: rest, effectiveRetryAfter ra * 1000 + TELEGRAM_DELAY⟩

/-! ### Concrete records used by counterexamples and witnesses -/

/-- A create-instruction payload: discriminator, then the three strings
name `"Foo"`, symbol `"FOO"`, uri `"ipfs://x"` length-prefixed. -/
def sampleCreateData : List Nat :=
  CREATE_DISCRIMINATOR ++ [3, 0, 0, 0, 70, 111, 111] ++ [3, 0, 0, 0, 70, 79, 79] ++
    [8, 0, 0, 0, 105, 112, 102, 115, 58, 47, 47, 120]

/-- A transaction marked failed by the provider whose single
instruction is a well-formed Pump.fun create. -/
def failedMintTx : PfTxView :=
  { err := some "InstructionError"
    accountKeys := ["A", "B", "C", "D", "E", "F", "G", "H", PUMPFUN_PROGRAM]
    instructions := [⟨8, [0, 1, 2, 3, 4, 5, 6, 7], sampleCreateData⟩]
    signature := "sig1"
    slot := 42 }

/-- A successful log delivery whose lines match the migration
heuristic. -/
def dupLogDelivery : LogValue :=
  ⟨"sigDup", none, ["Program log: Instruction: Migrate"]⟩

/-! ### Basic byte-decoder facts -/

theorem readUInt32LE_isSome_iff (buf : List Nat) (off : Nat) :
    (readUInt32LE buf off).isSome ↔ off + 4 ≤ buf.length := by
  unfold readUInt32LE
  split <;> simp_all

theorem bufSlice_length (buf : List Nat) (start stop : Nat) :
    (bufSlice buf start stop).length = min stop buf.length - start := by
  simp [bufSlice]

/-! ## Claim C9 -/

/-- C9: for every instruction payload shorter than 8 bytes, the
discriminator comparison returns `false` (it is total, so it never
throws), and `isCreateInstruction` never answers `some true` for such
a payload whatever the key list. -/
theorem short_payload_never_matches_discriminator (data : List Nat)
    (h : data.length < 8) :
    discriminatorMatches data = false ∧
      ∀ (inst : PfInstruction) (keys : List String),
        inst.data = data → isCreateInstruction inst keys ≠ some true := by
  have hmain : discriminatorMatches data = false := by
    unfold discriminatorMatches
    simp only [decide_eq_false_iff_not]
    intro heq
    have hlen := congrArg List.length heq
    have h8 : CREATE_DISCRIMINATOR.length = 8 := rfl
    rw [List.length_take, h8] at hlen
    omega
  refine ⟨hmain, fun inst keys hdata => ?_⟩
  unfold isCreateInstruction
  cases hk : keys.get? inst.programIdIndex with
  | none => simp
  | some pid =>
    by_cases hpid : pid ≠ PUMPFUN_PROGRAM
    · simp [hpid]
    · simp [hpid, hdata, hmain]

/-- Witness for C9 at the 3-byte payload `[1, 2, 3]`. -/
theorem short_payload_never_matches_discriminator_witness :
    discriminatorMatches [1, 2, 3] = false :=
  (short_payload_never_matches_discriminator [1, 2, 3] (by decide)).1

/-! ## Claim C2 -/

/-- C2 counterexample: the buffer `[3, 0, 0, 0, 65]` declares a
3-byte string but holds only one byte past the length prefix;
`decodeString` does not report an error — it returns the silently
truncated string `[65]` while still claiming `bytesRead = 7`. -/
theorem decodeString_truncation_counterexample :
    decodeString [3, 0, 0, 0, 65] 0 = some ([65], 7) ∧
      ([3, 0, 0, 0, 65] : List Nat).length < 0 + 4 + 3 := by
  constructor
  · rfl
  · decide

/-- C2 amended: when fewer than `4 + L` bytes remain but the 4-byte
length itself is readable, `decodeString` succeeds with the available
bytes (strictly fewer than `L` of them) and `bytesRead = 4 + L`; only
when fewer than 4 bytes remain does it throw (the caller's
`try`/`catch` turns that into `null`). -/
theorem decodeString_amended (buf : List Nat) (off len : Nat)
    (hread : readUInt32LE buf off = some len)
    (htrunc : buf.length < off + 4 + len) :
    decodeString buf off = some (bufSlice buf (off + 4) (off + 4 + len), 4 + len) ∧
      (bufSlice buf (off + 4) (off + 4 + len)).length = buf.length - (off + 4) ∧
      buf.length - (off + 4) < len ∧
      ∀ (b : List Nat) (o : Nat), b.length < o + 4 → decodeString b o = none := by
  have hle : off + 4 ≤ buf.length := by
    by_contra hc
    unfold readUInt32LE at hread
    rw [if_neg (by omega)] at hread
    exact Option.noConfusion hread
  refine ⟨?_, ?_, by omega, ?_⟩
  · unfold decodeString
    rw [hread]
  · rw [bufSlice_length]
    omega
  · intro b o hb
    unfold decodeString readUInt32LE
    rw [if_neg (by omega)]

/-- Witness for C2's amended statement at the counterexample buffer. -/
theorem decodeString_amended_witness :
    decodeString [3, 0, 0, 0, 65] 0 =
      some (bufSlice [3, 0, 0, 0, 65] (0 + 4) (0 + 4 + 3), 4 + 3) :=
  (decodeString_amended [3, 0, 0, 0, 65] 0 3 rfl (by decide)).1

/-! ## Claim C1 -/

/-- C1 counterexample: a transaction carrying a provider error whose
instruction matches the create discriminator still produces a
`MintCreated` event in the mint monitor — the handler never reads the
error flag. -/
theorem failed_tx_still_classified_counterexample :
    failedMintTx.err.isSome = true ∧ pumpfunHandler failedMintTx ≠ [] := by
  constructor
  · rfl
  · decide

/-- C1 amended: the migration listener discards failed transactions
before classification (`processLog` returns without fetching), but the
mint monitor's handler is insensitive to the error field, so a failed
transaction classifies exactly like a successful one there. -/
theorem failed_tx_handling_amended :
    (∀ v : LogValue, v.err.isSome = true → processLog v = .skipFailed) ∧
      ∀ (v : PfTxView) (e : Option String),
        pumpfunHandler { v with err := e } = pumpfunHandler v := by
  constructor
  · intro v hv
    unfold processLog
    rw [if_pos hv]
  · intro v e
    rfl

/-- Witness for C1's amended statement: a concrete failed log delivery
is skipped. -/
theorem failed_tx_handling_amended_witness :
    processLog ⟨"s", some "err", ["Program log: Instruction: Migrate"]⟩ =
      .skipFailed :=
  failed_tx_handling_amended.1 ⟨"s", some "err", ["Program log: Instruction: Migrate"]⟩ rfl

/-! ## Claim C4 -/

/-- C4 counterexample: two deliveries of the same migration-matching
signature trigger two fetches — the listener keeps no seen-signature
set. -/
theorem duplicate_delivery_double_fetch_counterexample :
    fetchedSignatures [dupLogDelivery, dupLogDelivery] = ["sigDup", "sigDup"] := by
  decide

/-- C4 amended: the migration listener issues exactly one fetch per
successful migration-matching delivery — fetches are counted per
delivery, not per distinct signature, so duplicate deliveries fetch
again. -/
theorem fetch_per_delivery_amended (ds : List LogValue) :
    fetchedSignatures ds =
      (ds.filter fun v => v.err.isNone && v.logs.any isMigrationLogLine).map
        (fun v => v.signature) := by
  induction ds with
  | nil => rfl
  | cons v rest ih =>
    rw [fetchedSignatures, List.filter_cons]
    unfold processLog
    by_cases he : v.err.isSome = true
    · have : v.err.isNone = false := by
        cases hv : v.err <;> simp_all
      simp [he, this, ih]
    · have hnone : v.err.isNone = true := by
        cases hv : v.err <;> simp_all
      by_cases hm : v.logs.any isMigrationLogLine
      · simp [he, hnone, hm, ih]
      · simp [he, hnone, hm, ih]

/-! ## Claim C5 -/

/-- C5 counterexample: the whale tracker's two connections share one
counter, and the Hyperliquid info connection's `'open'` handler never
resets it.  After one reconnect (delay 2000 ms) and a successful
reopen, the counter still reads 1, and the next disconnect backs off
4000 ms instead of restarting at the base delay. -/
theorem info_open_does_not_reset_counterexample :
    (handleReconnect initialHLState).2 = some 2000 ∧
      (hyperliquidInfoOnOpen (handleReconnect initialHLState).1).reconnectAttempts = 1 ∧
      (handleReconnect
        (hyperliquidInfoOnOpen (handleReconnect initialHLState).1)).2 = some 4000 :=
  ⟨rfl, rfl, rfl⟩

/-- C5 amended: the migration listener's `handleOpen` and the whale
tracker's HyperEVM `'open'` handler do reset the counter to zero, so
the next disconnect starts again from the 2000 ms base delay; the
Hyperliquid info connection's `'open'` handler leaves the counter
unchanged. -/
theorem reconnect_counter_reset_amended :
    (∀ st : ListenerState,
        (handleOpen st).reconnectAttempts = 0 ∧
        (handleClose (handleOpen st)).2 = .reconnect 2000) ∧
      (∀ st : HLState,
        (hyperEvmOnOpen st).reconnectAttempts = 0 ∧
        (handleReconnect (hyperEvmOnOpen st)).2 = some 2000) ∧
      ∀ st : HLState,
        (hyperliquidInfoOnOpen st).reconnectAttempts = st.reconnectAttempts := by
  refine ⟨fun st => ⟨rfl, ?_⟩, fun st => ⟨rfl, ?_⟩, fun st => rfl⟩
  · simp [handleClose, handleOpen, maxReconnectAttempts]
  · simp [handleReconnect, hyperEvmOnOpen, hlMaxReconnectAttempts]

/-! ## Claim C6 -/

/-- C6: for every attempt `n` from 1 up to the configured maximum (10
for the migration listener, 5 for the whale tracker), the scheduled
reconnect delay is `min(1000 * 2^n, 30000)` ms; the delay sequence is
non-decreasing in `n` and never exceeds the 30000 ms cap. -/
theorem reconnect_backoff_formula (n : Nat) (h1 : 1 ≤ n) :
    (n ≤ maxReconnectAttempts →
      ∀ st : ListenerState, st.reconnectAttempts = n - 1 →
        (handleClose st).2 = .reconnect (min (1000 * 2 ^ n) 30000)) ∧
      (n ≤ hlMaxReconnectAttempts →
        ∀ st : HLState, st.reconnectAttempts = n - 1 →
          (handleReconnect st).2 = some (min (1000 * 2 ^ n) 30000)) ∧
      (∀ m : Nat, n ≤ m →
        min (1000 * 2 ^ n) 30000 ≤ min (1000 * 2 ^ m) 30000) ∧
      min (1000 * 2 ^ n) 30000 ≤ 30000 := by
  have hsucc : n - 1 + 1 = n := by omega
  refine ⟨?_, ?_, ?_, min_le_right _ _⟩
  · intro hn st hst
    unfold maxReconnectAttempts at hn
    unfold handleClose maxReconnectAttempts
    rw [hst, if_pos (by omega : n - 1 < 10), hsucc]
  · intro hn st hst
    unfold hlMaxReconnectAttempts at hn
    unfold handleReconnect hlMaxReconnectAttempts
    rw [hst, if_pos (by omega : n - 1 < 5), hsucc]
  · intro m hm
    exact min_le_min
      (Nat.mul_le_mul_left 1000 (Nat.pow_le_pow_right (by omega) hm)) le_rfl

/-- Witness for C6 at attempt 3: both state machines schedule
`min(1000 * 2^3, 30000) = 8000` ms. -/
theorem reconnect_backoff_formula_witness :
    (handleClose ⟨false, 2⟩).2 = .reconnect (min (1000 * 2 ^ 3) 30000) ∧
      (handleReconnect { initialHLState with reconnectAttempts := 2 }).2 =
        some (min (1000 * 2 ^ 3) 30000) :=
  ⟨(reconnect_backoff_formula 3 (by decide)).1 (by decide) ⟨false, 2⟩ rfl,
    (reconnect_backoff_formula 3 (by decide)).2.1 (by decide)
      { initialHLState with reconnectAttempts := 2 } rfl⟩

/-! ## Claim C7 -/

/-- C7 counterexample: a trade whose notional value is exactly one
unit below the 100000 USD threshold still produces a whale event
because its size (50 contracts) meets the size threshold — the two
gates are joined by `||` in `analyzeTrade`. -/
theorem below_value_threshold_still_whale_counterexample :
    isWhaleTrade (defaultConfig "t" "c") ⟨"BTC", "B", 99999 / 50, 50, "0xabc"⟩ = true ∧
      (99999 / 50 : ℚ) * 50 = (defaultConfig "t" "c").whaleThresholdUsd - 1 := by
  constructor
  · norm_num [isWhaleTrade, defaultConfig]
  · norm_num [defaultConfig]

/-- C7 amended: the transfer monitor's gate is inclusive and exact —
an event fires iff the amount is at least `100 * 10^9` lamports, so
exactly the threshold fires and one lamport below does not; the trade
gate is inclusive in value, and a value strictly below the USD
threshold produces no event only when the size is also below the size
threshold. -/
theorem whale_threshold_boundary_amended :
    (∀ lamports : Nat,
        transferIsWhale lamports = true ↔ 100 * 1000000000 ≤ lamports) ∧
      (∀ (c : HLConfig) (t : WhaleTrade),
        t.price * t.sz = c.whaleThresholdUsd → isWhaleTrade c t = true) ∧
      ∀ (c : HLConfig) (t : WhaleTrade),
        t.price * t.sz < c.whaleThresholdUsd → t.sz < c.whaleThresholdSize →
          isWhaleTrade c t = false := by
  refine ⟨?_, ?_, ?_⟩
  · intro lamports
    unfold transferIsWhale MIN_TRANSFER_AMOUNT
    rw [decide_eq_true_eq, le_div_iff₀ (by norm_num : (0 : ℚ) < 1000000000)]
    norm_cast
  · intro c t h
    unfold isWhaleTrade
    simp only [Bool.or_eq_true, decide_eq_true_eq]
    exact Or.inl (le_of_eq h.symm)
  · intro c t h1 h2
    unfold isWhaleTrade
    simp only [Bool.or_eq_false_iff, decide_eq_false_iff_not, not_le]
    exact ⟨h1, h2⟩

/-- Witness for C7's amended statement: 100 SOL exactly fires, a trade
at exactly 100000 USD fires, and a 99999-USD trade of size 1 does
not. -/
theorem whale_threshold_boundary_amended_witness :
    transferIsWhale 100000000000 = true ∧
      isWhaleTrade (defaultConfig "t" "c") ⟨"BTC", "B", 100000, 1, "u"⟩ = true ∧
      isWhaleTrade (defaultConfig "t" "c") ⟨"BTC", "B", 99999, 1, "u"⟩ = false :=
  ⟨(whale_threshold_boundary_amended.1 100000000000).mpr (by norm_num),
    whale_threshold_boundary_amended.2.1 (defaultConfig "t" "c")
      ⟨"BTC", "B", 100000, 1, "u"⟩ (by norm_num [defaultConfig]),
    whale_threshold_boundary_amended.2.2 (defaultConfig "t" "c")
      ⟨"BTC", "B", 99999, 1, "u"⟩ (by norm_num [defaultConfig])
      (by norm_num [defaultConfig])⟩

/-! ## Claim C8 -/

/-- C8: on a rate-limit response the in-flight message goes back to
the front of the queue (so it is not lost and is the next one
retried), the consumer sleeps at least the sink-specified retry-after
duration before the next pass, and a subsequent successful pass
delivers and removes it. -/
theorem rate_limit_requeues_front (m : OutMessage) (rest : List OutMessage)
    (ra : Option Nat) :
    (processTelegramQueueStep (m :: rest) (.rateLimited ra)).queue = m :: rest ∧
      ra.getD 5 * 1000 ≤
        (processTelegramQueueStep (m :: rest) (.rateLimited ra)).sleptMsBeforeNext ∧
      (processTelegramQueueStep (m :: rest) .success).queue = rest := by
  refine ⟨rfl, ?_, rfl⟩
  show ra.getD 5 * 1000 ≤ effectiveRetryAfter ra * 1000 + TELEGRAM_DELAY
  match ra with
  | none => simp [effectiveRetryAfter]
  | some 0 => simp [effectiveRetryAfter]
  | some (s + 1) => simp [effectiveRetryAfter]

/-! ## Claim C3 -/

theorem trackWhaleAddress_preserves_queues (st : HLState) (a : String) (v : ℚ) :
    (trackWhaleAddress st a v).telegramQueue = st.telegramQueue ∧
      (trackWhaleAddress st a v).pendingAlerts = st.pendingAlerts := by
  unfold trackWhaleAddress
  split <;> exact ⟨rfl, rfl⟩

/-- C3 (code bug): with batching enabled by configuration and Telegram
configured, a whale trade is still enqueued immediately as one
individual message; `pendingAlerts` is untouched — `analyzeTrade` and
`notifyWhaleTrade` never consult `CONFIG.TELEGRAM_BATCH_ALERTS`, and
nothing in the program calls `sendBatchedAlerts` or fills the batch
buffer. -/
theorem batching_flag_ignored (c : HLConfig) (st : HLState) (t : WhaleTrade)
    (hbatch : c.batchAlerts = true) (htg : telegramConfigured c = true)
    (hw : isWhaleTrade c t = true) :
    (analyzeTrade c st t).telegramQueue = st.telegramQueue ++ [.single t] ∧
      (analyzeTrade c st t).pendingAlerts = st.pendingAlerts := by
  unfold analyzeTrade
  rw [hw]
  simp only [if_true]
  unfold notifyWhaleTrade sendTelegramMessage
  rw [htg]
  simp only [if_true]
  by_cases hu : t.user ≠ "" ∧ t.user ≠ "Unknown"
  · rw [if_pos hu]
    exact ⟨congrArg (· ++ [OutMessage.single t])
        (trackWhaleAddress_preserves_queues st t.user (t.price * t.sz)).1,
      (trackWhaleAddress_preserves_queues st t.user (t.price * t.sz)).2⟩
  · rw [if_neg hu]
    exact ⟨rfl, rfl⟩

/-- Witness for C3 at the default configuration (batching on by
default) and a 150000 USD trade. -/
theorem batching_flag_ignored_witness :
    (analyzeTrade (defaultConfig "t" "c") initialHLState
        ⟨"BTC", "B", 50000, 3, "0xabc"⟩).telegramQueue =
      initialHLState.telegramQueue ++ [.single ⟨"BTC", "B", 50000, 3, "0xabc"⟩] ∧
      (analyzeTrade (defaultConfig "t" "c") initialHLState
        ⟨"BTC", "B", 50000, 3, "0xabc"⟩).pendingAlerts =
        initialHLState.pendingAlerts :=
  batching_flag_ignored (defaultConfig "t" "c") initialHLState
    ⟨"BTC", "B", 50000, 3, "0xabc"⟩ rfl rfl (by norm_num [isWhaleTrade, defaultConfig])

/-! ## Claim C10 -/

theorem extractMigrationData_skip (keys : List String) (inst : RawInstruction)
    (rest : List RawInstruction) (h : isMigrationMatch keys inst = false) :
    extractMigrationData keys (inst :: rest) = extractMigrationData keys rest := by
  cases hr : resolveProgramId keys inst with
  | none => simp only [extractMigrationData, hr]
  | some pid =>
    simp only [isMigrationMatch, hr, Bool.or_eq_false_iff, Bool.and_eq_false_iff,
      decide_eq_false_iff_not, not_le] at h
    simp only [extractMigrationData, hr]
    by_cases hray : pid = RAYDIUM_PROGRAM
    · rcases h.1 with hcontra | hlen
      · exact absurd hray hcontra
      · rw [if_pos hray, if_pos hlen]
    · rw [if_neg hray, if_neg h.2]

theorem extractMigrationData_head (keys : List String) (inst : RawInstruction)
    (rest : List RawInstruction) (h : isMigrationMatch keys inst = true) :
    extractMigrationData keys (inst :: rest) = buildMigration keys inst := by
  cases hr : resolveProgramId keys inst with
  | none =>
    simp only [isMigrationMatch, hr] at h
    exact Bool.noConfusion h
  | some pid =>
    simp only [isMigrationMatch, hr, Bool.or_eq_true, Bool.and_eq_true,
      decide_eq_true_eq] at h
    simp only [extractMigrationData, buildMigration, hr]
    by_cases hray : pid = RAYDIUM_PROGRAM
    · rw [if_pos hray, if_pos hray]
      by_cases hlen : inst.accounts.length < 7
      · rcases h with ⟨_, h7⟩ | hpump
        · omega
        · exact absurd (hray.symm.trans hpump)
            (by decide : ¬RAYDIUM_PROGRAM = PUMPFUN_PROGRAM)
      · rw [if_neg hlen, if_neg hlen]
    · rcases h with ⟨hcontra, _⟩ | hpump
      · exact absurd hcontra hray
      · rw [if_neg hray, if_neg hray, if_pos hpump, if_pos hpump]

/-- C10: a fetched transaction yields at most one migration event,
determined by the first instruction in order that matches (Raydium
program with at least 7 accounts, or the Pump.fun program); all
instructions after that first match — matching or not — are ignored,
since the result does not depend on them. -/
theorem first_match_determines_migration (keys : List String)
    (pre : List RawInstruction) (inst : RawInstruction)
    (post : List RawInstruction)
    (hpre : ∀ j ∈ pre, isMigrationMatch keys j = false)
    (hm : isMigrationMatch keys inst = true) :
    extractMigrationData keys (pre ++ inst :: post) = buildMigration keys inst := by
  induction pre with
  | nil => exact extractMigrationData_head keys inst post hm
  | cons j rest ih =>
    rw [List.cons_append,
      extractMigrationData_skip keys j (rest ++ inst :: post)
        (hpre j (List.mem_cons_self j rest))]
    exact ih fun x hx => hpre x (List.mem_cons_of_mem j hx)

/-- Witness for C10: a non-matching instruction, then a Pump.fun
instruction, then another matching instruction; the event is the one
built from the middle instruction. -/
theorem first_match_determines_migration_witness :
    extractMigrationData ["A", "B", "C", PUMPFUN_PROGRAM]
        ([⟨some 0, none, []⟩] ++ ⟨some 3, none, []⟩ :: [⟨some 3, none, []⟩]) =
      buildMigration ["A", "B", "C", PUMPFUN_PROGRAM] ⟨some 3, none, []⟩ :=
  first_match_determines_migration ["A", "B", "C", PUMPFUN_PROGRAM]
    [⟨some 0, none, []⟩] ⟨some 3, none, []⟩ [⟨some 3, none, []⟩]
    (by decide) (by decide)

end Watcher
